import Mathlib

/-!
Verification of the token-factory subsystem of antlr4rust
(`src/common_token_factory.rs`): the two base token factories
(`CommonTokenFactory` producing owning tokens, `CowTokenFactory`
producing copy-on-write tokens), the invalid-token singletons, and
the arena-backed factory adapter.

Machine integers (`isize`) are modelled as `Int`; the `AtomicIsize`
cell holding `token_index` is modelled by its integer value.
Rust `Box` values are modelled, where allocation identity matters,
as an address paired with the boxed value, threaded through an
allocation counter supplying fresh addresses.
-/

/-- The character-source collaborator (`CharStream` trait, consumed
capability): supplies a total length and text slices for ranges.
Modelled at its interface boundary: `get_text` and `size` are assumed
total, as the spec requires. -/
structure CharStream where
  size : Int
  get_text : Int → Int → String

/-- Modelled from the spec: the reserved invalid sentinel token type
`TOKEN_INVALID_TYPE`, defined in the token module which is absent from
the given sources.  Its concrete value is irrelevant to every claim;
only equality with token fields matters. -/
def TOKEN_INVALID_TYPE : Int := 0

/-- Rust `Cow<'a, str>`: either a borrowed view or an owned buffer. -/
inductive CowStr where
  | Borrowed (s : String)
  | Owned (s : String)
deriving DecidableEq, Repr

/-- The string content of a `Cow<'a, str>`, ignoring the tag
(Rust's `Deref`). -/
def CowStr.value : CowStr → String
  | .Borrowed s => s
  | .Owned s => s

/-- Whether a `Cow<'a, str>` is the owned variant. -/
def CowStr.isOwned : CowStr → Bool
  | .Borrowed _ => false
  | .Owned _ => true

/-- `OwningToken` as constructed by `CommonTokenFactory::create` and the
`INVALID_OWNING` static: `text` is always an owned `String`.
`token_index: AtomicIsize` is modelled by its integer value. -/
structure OwningToken where
  token_type : Int
  channel : Int
  start : Int
  stop : Int
  token_index : Int
  line : Int
  column : Int
  text : String
  read_only : Bool
deriving DecidableEq, Repr

/-- `CommonToken<'a>` as constructed by `CowTokenFactory::create` and the
`INVALID_COMMON` static: `text` is a `Cow<'a, str>`. -/
structure CommonToken where
  token_type : Int
  channel : Int
  start : Int
  stop : Int
  token_index : Int
  line : Int
  column : Int
  text : CowStr
  read_only : Bool
deriving DecidableEq, Repr

/-- The value of the `INVALID_OWNING` lazy static
(`common_token_factory.rs:20-30`). -/
def INVALID_OWNING : OwningToken :=
  { token_type := TOKEN_INVALID_TYPE
    channel := 0
    start := -1
    stop := -1
    token_index := -1
    line := -1
    column := -1
    text := "<invalid>"
    read_only := true }

/-- The value of the `INVALID_COMMON` lazy static
(`common_token_factory.rs:31-41`). -/
def INVALID_COMMON : CommonToken :=
  { token_type := TOKEN_INVALID_TYPE
    channel := 0
    start := -1
    stop := -1
    token_index := -1
    line := -1
    column := -1
    text := CowStr.Borrowed "<invalid>"
    read_only := true }

/-- `CowTokenFactory::create` (`common_token_factory.rs:74-104`):
explicit text becomes `Owned`; otherwise with a source the slice (or the
substituted `"<EOF>"` when `stop >= size || start >= size`) is wrapped
`Borrowed`; with neither, `Borrowed("")`.  All position fields are
stored as passed; `token_index` starts at `-1`; `read_only` is `false`. -/
def CowTokenFactory.create (source : Option CharStream) (ttype : Int)
    (text : Option String) (channel start stop line column : Int) :
    CommonToken :=
  let text : CowStr :=
    match text, source with
    | some t, _ => CowStr.Owned t
    | none, some x =>
        CowStr.Borrowed
          (if stop ≥ x.size ∨ start ≥ x.size then "<EOF>"
           else x.get_text start stop)
    | none, none => CowStr.Borrowed ""
  { token_type := ttype
    channel := channel
    start := start
    stop := stop
    token_index := -1
    line := line
    column := column
    text := text
    read_only := false }

/-- `CommonTokenFactory::create` (`common_token_factory.rs:124-154`):
same text-resolution policy, but every outcome is an owned `String`. -/
def CommonTokenFactory.create (source : Option CharStream) (ttype : Int)
    (text : Option String) (channel start stop line column : Int) :
    OwningToken :=
  let text : String :=
    match text, source with
    | some t, _ => t
    | none, some x =>
        if stop ≥ x.size ∨ start ≥ x.size then "<EOF>"
        else x.get_text start stop
    | none, none => ""
  { token_type := ttype
    channel := channel
    start := start
    stop := stop
    token_index := -1
    line := line
    column := column
    text := text
    read_only := false }

/-- A Rust `Box<α>` (or `&α`) modelled with its allocation identity: a
heap address plus the held value. -/
structure BoxH (α : Type) where
  addr : Nat
  val : α
deriving DecidableEq, Repr

/-- Address of the `INVALID_OWNING` static's box.  Statics get the two
lowest addresses; the fresh-allocation counter starts above them. -/
def INVALID_OWNING_addr : Nat := 0

/-- Address of the `INVALID_COMMON` static's box. -/
def INVALID_COMMON_addr : Nat := 1

/-- The `INVALID_OWNING` static as a boxed value with its address. -/
def INVALID_OWNING_box : BoxH OwningToken :=
  ⟨INVALID_OWNING_addr, INVALID_OWNING⟩

/-- The `INVALID_COMMON` static as a boxed value with its address. -/
def INVALID_COMMON_box : BoxH CommonToken :=
  ⟨INVALID_COMMON_addr, INVALID_COMMON⟩

/-- Rust `Box::clone`: allocates a new box at a fresh address holding a
copy of the value; the allocation counter advances. -/
def boxClone {α : Type} (b : BoxH α) (fresh : Nat) : BoxH α × Nat :=
  (⟨fresh, b.val⟩, fresh + 1)

/-- `CommonTokenFactory::create_invalid`
(`common_token_factory.rs:156-158`): `INVALID_OWNING.clone()`, i.e. a
`Box` clone of the static. -/
def CommonTokenFactory.create_invalid (fresh : Nat) :
    BoxH OwningToken × Nat :=
  boxClone INVALID_OWNING_box fresh

/-- `CowTokenFactory::create_invalid`
(`common_token_factory.rs:106-108`): `INVALID_COMMON.clone()`. -/
def CowTokenFactory.create_invalid (fresh : Nat) :
    BoxH CommonToken × Nat :=
  boxClone INVALID_COMMON_box fresh

/-- `ArenaFactory::create` (`common_token_factory.rs:199-212`): build a
token by delegating to the wrapped base factory with exactly the given
arguments, then move it into the arena (which appends, never relocating
earlier entries) and hand back a reference to the stored value.  The
arena's contents are modelled as the list of stored tokens, and the
returned reference by the stored value. -/
def ArenaFactory.create {T : Type}
    (fac : Option CharStream → Int → Option String →
      Int → Int → Int → Int → Int → T)
    (arena : List T) (source : Option CharStream) (ttype : Int)
    (text : Option String) (channel start stop line column : Int) :
    T × List T :=
  let token := fac source ttype text channel start stop line column
  (token, arena ++ [token])

/-- Modelled from the spec: the `Default` implementation for
`&OwningToken` — required by `ArenaFactory`'s
`for<'a> &'a T: Default` bound and defined in the token module, which
is absent from the given sources — returns a reference to the shared
`INVALID_OWNING` singleton. -/
def default_ref_owning : BoxH OwningToken := INVALID_OWNING_box

/-- Modelled from the spec: the `Default` implementation for
`&CommonToken`, likewise returning a reference to the shared
`INVALID_COMMON` singleton. -/
def default_ref_common : BoxH CommonToken := INVALID_COMMON_box

/-- `ArenaFactory::create_invalid` (`common_token_factory.rs:214-216`)
for the owning representation: `<&T as Default>::default()`.  It is an
associated function with no access to the arena; the arena state is
threaded to make the frame property explicit. -/
def ArenaFactory.create_invalid_owning (arena : List OwningToken) :
    BoxH OwningToken × List OwningToken :=
  (default_ref_owning, arena)

/-- `ArenaFactory::create_invalid` for the copy-on-write
representation. -/
def ArenaFactory.create_invalid_common (arena : List CommonToken) :
    BoxH CommonToken × List CommonToken :=
  (default_ref_common, arena)

/-- A concrete character source used by witnesses: length 10, with a
`get_text` that records the requested range so distinct ranges give
distinct slices. -/
def demoStream : CharStream :=
  { size := 10
    get_text := fun a b => "slice(" ++ toString a ++ "," ++ toString b ++ ")" }

/-- C1 counterexample: `create_invalid` on the base factories is
`INVALID_*.clone()`, a `Box` clone.  Two successive calls (allocation
counter starting at 2, above the statics' addresses) return boxes at
addresses 2 and 3: not identity-equal to each other, nor to the
singleton statics at addresses 0 and 1, and each call performs a fresh
allocation (the counter advances), contrary to the claim. -/
theorem create_invalid_not_identity :
    (CommonTokenFactory.create_invalid 2).1.addr = 2 ∧
    (CommonTokenFactory.create_invalid
      (CommonTokenFactory.create_invalid 2).2).1.addr = 3 ∧
    (CommonTokenFactory.create_invalid 2).1.addr ≠
      (CommonTokenFactory.create_invalid
        (CommonTokenFactory.create_invalid 2).2).1.addr ∧
    (CommonTokenFactory.create_invalid 2).1.addr ≠ INVALID_OWNING_box.addr ∧
    (CommonTokenFactory.create_invalid 2).2 ≠ 2 ∧
    (CowTokenFactory.create_invalid 2).1.addr ≠
      (CowTokenFactory.create_invalid
        (CowTokenFactory.create_invalid 2).2).1.addr ∧
    (CowTokenFactory.create_invalid 2).1.addr ≠ INVALID_COMMON_box.addr := by
  decide

/-- C1 (amended): every call to `create_invalid` on a base factory
returns a freshly allocated clone of the shared invalid singleton: the
handle is a new box (one allocation per call, identity-distinct from
the singleton and from other calls), but its value is exactly the
singleton's value, so `token_type` is the invalid sentinel and
`read_only` is `true`. -/
theorem create_invalid_fresh_clone_of_singleton (fresh : ℕ) :
    (CommonTokenFactory.create_invalid fresh).1.val = INVALID_OWNING ∧
    (CommonTokenFactory.create_invalid fresh).1.addr = fresh ∧
    (CommonTokenFactory.create_invalid fresh).2 = fresh + 1 ∧
    (CommonTokenFactory.create_invalid fresh).1.val.token_type =
      TOKEN_INVALID_TYPE ∧
    (CommonTokenFactory.create_invalid fresh).1.val.read_only = true ∧
    (CowTokenFactory.create_invalid fresh).1.val = INVALID_COMMON ∧
    (CowTokenFactory.create_invalid fresh).1.addr = fresh ∧
    (CowTokenFactory.create_invalid fresh).2 = fresh + 1 ∧
    (CowTokenFactory.create_invalid fresh).1.val.token_type =
      TOKEN_INVALID_TYPE ∧
    (CowTokenFactory.create_invalid fresh).1.val.read_only = true := by
  refine ⟨rfl, rfl, rfl, rfl, rfl, rfl, rfl, rfl, rfl, rfl⟩

/-- C2: for both base factories, with no explicit text: an out-of-range
span against a supplied source (per the code's check
`stop >= size || start >= size`) yields the literal `"<EOF>"`; an
in-range span yields the source's `get_text(start, stop)`; and with no
source either, the text is empty. -/
theorem create_text_no_explicit_policy (x : CharStream)
    (ttype channel start stop line column : Int) :
    (stop ≥ x.size ∨ start ≥ x.size →
      (CowTokenFactory.create (some x) ttype none channel start stop
        line column).text.value = "<EOF>" ∧
      (CommonTokenFactory.create (some x) ttype none channel start stop
        line column).text = "<EOF>") ∧
    (stop < x.size → start < x.size →
      (CowTokenFactory.create (some x) ttype none channel start stop
        line column).text.value = x.get_text start stop ∧
      (CommonTokenFactory.create (some x) ttype none channel start stop
        line column).text = x.get_text start stop) ∧
    ((CowTokenFactory.create none ttype none channel start stop
        line column).text.value = "" ∧
      (CommonTokenFactory.create none ttype none channel start stop
        line column).text = "") := by
  refine ⟨fun h => ?_, fun h1 h2 => ?_, rfl, rfl⟩
  · simp only [CowTokenFactory.create, CommonTokenFactory.create,
      CowStr.value, if_pos h]
    exact ⟨trivial, trivial⟩
  · have hn : ¬(stop ≥ x.size ∨ start ≥ x.size) := by
      push_neg
      exact ⟨h1, h2⟩
    simp only [CowTokenFactory.create, CommonTokenFactory.create,
      CowStr.value, if_neg hn]
    exact ⟨trivial, trivial⟩

/-- C2 witness: instantiated on the concrete length-10 `demoStream`
with an out-of-range span (12), an in-range span ([2,5]), and the
no-source case. -/
theorem create_text_no_explicit_policy_witness :
    ((CowTokenFactory.create (some demoStream) 1 none 0 12 12
        1 0).text.value = "<EOF>" ∧
      (CommonTokenFactory.create (some demoStream) 1 none 0 12 12
        1 0).text = "<EOF>") ∧
    ((CowTokenFactory.create (some demoStream) 1 none 0 2 5
        1 0).text.value = demoStream.get_text 2 5 ∧
      (CommonTokenFactory.create (some demoStream) 1 none 0 2 5
        1 0).text = demoStream.get_text 2 5) ∧
    ((CowTokenFactory.create none 1 none 0 2 5 1 0).text.value = "" ∧
      (CommonTokenFactory.create none 1 none 0 2 5 1 0).text = "") :=
  ⟨(create_text_no_explicit_policy demoStream 1 0 12 12 1 0).1
      (by decide),
    (create_text_no_explicit_policy demoStream 1 0 2 5 1 0).2.1
      (by decide) (by decide),
    (create_text_no_explicit_policy demoStream 1 0 2 5 1 0).2.2⟩

/-- C3: with an explicit text argument, both base factories store that
text verbatim (as the owned variant for the copy-on-write
representation), whatever the source and range are. -/
theorem create_text_explicit_verbatim (source : Option CharStream)
    (ttype : Int) (t : String) (channel start stop line column : Int) :
    (CowTokenFactory.create source ttype (some t) channel start stop
      line column).text = CowStr.Owned t ∧
    (CowTokenFactory.create source ttype (some t) channel start stop
      line column).text.value = t ∧
    (CommonTokenFactory.create source ttype (some t) channel start stop
      line column).text = t := by
  cases source <;> exact ⟨rfl, rfl, rfl⟩

/-- C4 counterexample: the claim says synthesized text — e.g. the
substituted `"<EOF>"` — is tagged as an owned buffer in the
copy-on-write factory.  The code wraps the whole no-explicit-text,
source-supplied arm in `Borrowed(...)`, so with the length-10
`demoStream` and out-of-range span 12 the resulting text is
`Borrowed "<EOF>"`, not an owned buffer. -/
theorem cow_eof_tagged_borrowed :
    (CowTokenFactory.create (some demoStream) 1 none 0 12 12
      1 0).text = CowStr.Borrowed "<EOF>" ∧
    (CowTokenFactory.create (some demoStream) 1 none 0 12 12
      1 0).text ≠ CowStr.Owned "<EOF>" ∧
    (CowTokenFactory.create (some demoStream) 1 none 0 12 12
      1 0).text.isOwned = false := by
  refine ⟨by decide, by decide, by decide⟩

/-- C4 (amended): in the copy-on-write factory the text is tagged
`Owned` exactly when explicit text is supplied; in every other case it
is tagged `Borrowed` — borrowing the source slice when the span is in
range, and a static literal for the synthesized `"<EOF>"` and for the
empty default.  Only the in-range slice borrows from the source
buffer. -/
theorem cow_text_tag (source : Option CharStream) (ttype : Int)
    (text : Option String) (channel start stop line column : Int) :
    ((CowTokenFactory.create source ttype text channel start stop
        line column).text.isOwned = text.isSome) ∧
    (∀ x, source = some x → text = none → stop < x.size →
      start < x.size →
      (CowTokenFactory.create source ttype text channel start stop
        line column).text = CowStr.Borrowed (x.get_text start stop)) ∧
    (∀ t, text = some t →
      (CowTokenFactory.create source ttype text channel start stop
        line column).text = CowStr.Owned t) := by
  refine ⟨?_, fun x hx ht h1 h2 => ?_, fun t ht => ?_⟩
  · cases text <;> cases source <;> rfl
  · subst hx ht
    have hn : ¬(stop ≥ x.size ∨ start ≥ x.size) := by
      push_neg
      exact ⟨h1, h2⟩
    simp only [CowTokenFactory.create, if_neg hn]
  · subst ht
    cases source <;> rfl

/-- C4 amendment witness: on the length-10 `demoStream`, an in-range
span with no explicit text is tagged `Borrowed` with the source slice,
and explicit text is tagged `Owned`. -/
theorem cow_text_tag_witness :
    (CowTokenFactory.create (some demoStream) 1 none 0 2 5
      1 0).text.isOwned = (none : Option String).isSome ∧
    (CowTokenFactory.create (some demoStream) 1 none 0 2 5
      1 0).text = CowStr.Borrowed (demoStream.get_text 2 5) ∧
    (CowTokenFactory.create (some demoStream) 1 (some "foo") 0 2 5
      1 0).text = CowStr.Owned "foo" :=
  ⟨(cow_text_tag (some demoStream) 1 none 0 2 5 1 0).1,
    (cow_text_tag (some demoStream) 1 none 0 2 5 1 0).2.1 demoStream
      rfl rfl (by decide) (by decide),
    (cow_text_tag (some demoStream) 1 (some "foo") 0 2 5 1 0).2.2 "foo"
      rfl⟩

/-- C5: the arena adapter's `create` first delegates to the wrapped
base factory with exactly its arguments, then appends the resulting
value to the arena; the returned token equals the base factory's token
for the same arguments (hence every observable field agrees), and the
arena grows by exactly that token.  Stated for both wrapped base
factories. -/
theorem arena_create_delegates (arenaO : List OwningToken)
    (arenaC : List CommonToken) (source : Option CharStream)
    (ttype : Int) (text : Option String)
    (channel start stop line column : Int) :
    (ArenaFactory.create CommonTokenFactory.create arenaO source ttype
        text channel start stop line column).1 =
      CommonTokenFactory.create source ttype text channel start stop
        line column ∧
    (ArenaFactory.create CommonTokenFactory.create arenaO source ttype
        text channel start stop line column).2 =
      arenaO ++ [CommonTokenFactory.create source ttype text channel
        start stop line column] ∧
    (ArenaFactory.create CowTokenFactory.create arenaC source ttype
        text channel start stop line column).1 =
      CowTokenFactory.create source ttype text channel start stop
        line column ∧
    (ArenaFactory.create CowTokenFactory.create arenaC source ttype
        text channel start stop line column).2 =
      arenaC ++ [CowTokenFactory.create source ttype text channel
        start stop line column] :=
  ⟨rfl, rfl, rfl, rfl⟩

/-- C6: with no explicit text and a supplied source, the `"<EOF>"`
substitution in both base factories happens precisely when
`start >= size` or `stop >= size` under signed comparison; whenever
both are strictly below `size` — including negative values such as
`start = stop = -1` — the arguments are passed unchanged to
`get_text(start, stop)`. -/
theorem eof_substitution_signed (x : CharStream)
    (ttype channel start stop line column : Int) :
    (start ≥ x.size ∨ stop ≥ x.size →
      (CowTokenFactory.create (some x) ttype none channel start stop
        line column).text = CowStr.Borrowed "<EOF>" ∧
      (CommonTokenFactory.create (some x) ttype none channel start stop
        line column).text = "<EOF>") ∧
    (start < x.size → stop < x.size →
      (CowTokenFactory.create (some x) ttype none channel start stop
        line column).text =
        CowStr.Borrowed (x.get_text start stop) ∧
      (CommonTokenFactory.create (some x) ttype none channel start stop
        line column).text = x.get_text start stop) := by
  refine ⟨fun h => ?_, fun h1 h2 => ?_⟩
  · have hp : stop ≥ x.size ∨ start ≥ x.size := h.symm
    simp only [CowTokenFactory.create, CommonTokenFactory.create,
      if_pos hp]
    exact ⟨trivial, trivial⟩
  · have hn : ¬(stop ≥ x.size ∨ start ≥ x.size) := by
      push_neg
      exact ⟨h2, h1⟩
    simp only [CowTokenFactory.create, CommonTokenFactory.create,
      if_neg hn]
    exact ⟨trivial, trivial⟩

/-- C6 witness: on the non-empty length-10 `demoStream`,
`start = stop = -1` does not trigger the substitution: the text is
`get_text(-1, -1)` (which is not `"<EOF>"`), while `start = 12`
does trigger it. -/
theorem eof_substitution_signed_witness :
    ((CowTokenFactory.create (some demoStream) 1 none 0 (-1) (-1)
        1 0).text = CowStr.Borrowed (demoStream.get_text (-1) (-1)) ∧
      (CommonTokenFactory.create (some demoStream) 1 none 0 (-1) (-1)
        1 0).text = demoStream.get_text (-1) (-1)) ∧
    demoStream.get_text (-1) (-1) ≠ "<EOF>" ∧
    (CommonTokenFactory.create (some demoStream) 1 none 0 12 12
      1 0).text = "<EOF>" :=
  ⟨(eof_substitution_signed demoStream 1 0 (-1) (-1) 1 0).2
      (by decide) (by decide),
    by decide,
    ((eof_substitution_signed demoStream 1 0 12 12 1 0).1
      (Or.inl (by decide))).2⟩

/-- C7: the invalid-token singletons have exactly the fixed fields the
spec lists: `token_type` = invalid sentinel, `channel = 0`,
`start = stop = -1`, `token_index = -1`, `line = column = -1`,
`text = "<invalid>"`, `read_only = true`, for both representations.
(The at-most-once lazy construction is the semantics of the
`lazy_static` blocks that define them, modelled here as single
constants.) -/
theorem invalid_singleton_fields :
    INVALID_OWNING.token_type = TOKEN_INVALID_TYPE ∧
    INVALID_OWNING.channel = 0 ∧
    INVALID_OWNING.start = -1 ∧ INVALID_OWNING.stop = -1 ∧
    INVALID_OWNING.token_index = -1 ∧
    INVALID_OWNING.line = -1 ∧ INVALID_OWNING.column = -1 ∧
    INVALID_OWNING.text = "<invalid>" ∧
    INVALID_OWNING.read_only = true ∧
    INVALID_COMMON.token_type = TOKEN_INVALID_TYPE ∧
    INVALID_COMMON.channel = 0 ∧
    INVALID_COMMON.start = -1 ∧ INVALID_COMMON.stop = -1 ∧
    INVALID_COMMON.token_index = -1 ∧
    INVALID_COMMON.line = -1 ∧ INVALID_COMMON.column = -1 ∧
    INVALID_COMMON.text.value = "<invalid>" ∧
    INVALID_COMMON.read_only = true := by
  refine ⟨rfl, rfl, rfl, rfl, rfl, rfl, rfl, rfl, rfl, rfl, rfl, rfl,
    rfl, rfl, rfl, rfl, rfl, rfl⟩

/-- C8: every token built by either base factory carries its arguments
unchanged in `token_type`, `channel`, `start`, `stop`, `line` and
`column`, has `token_index` initialized to the unset sentinel `-1`,
and has `read_only = false`, for every text/source combination. -/
theorem create_initial_fields (source : Option CharStream) (ttype : Int)
    (text : Option String) (channel start stop line column : Int) :
    (CowTokenFactory.create source ttype text channel start stop line
        column).token_index = -1 ∧
    (CowTokenFactory.create source ttype text channel start stop line
        column).read_only = false ∧
    (CowTokenFactory.create source ttype text channel start stop line
        column).token_type = ttype ∧
    (CowTokenFactory.create source ttype text channel start stop line
        column).channel = channel ∧
    (CowTokenFactory.create source ttype text channel start stop line
        column).start = start ∧
    (CowTokenFactory.create source ttype text channel start stop line
        column).stop = stop ∧
    (CowTokenFactory.create source ttype text channel start stop line
        column).line = line ∧
    (CowTokenFactory.create source ttype text channel start stop line
        column).column = column ∧
    (CommonTokenFactory.create source ttype text channel start stop line
        column).token_index = -1 ∧
    (CommonTokenFactory.create source ttype text channel start stop line
        column).read_only = false ∧
    (CommonTokenFactory.create source ttype text channel start stop line
        column).token_type = ttype ∧
    (CommonTokenFactory.create source ttype text channel start stop line
        column).channel = channel ∧
    (CommonTokenFactory.create source ttype text channel start stop line
        column).start = start ∧
    (CommonTokenFactory.create source ttype text channel start stop line
        column).stop = stop ∧
    (CommonTokenFactory.create source ttype text channel start stop line
        column).line = line ∧
    (CommonTokenFactory.create source ttype text channel start stop line
        column).column = column := by
  refine ⟨rfl, rfl, rfl, rfl, rfl, rfl, rfl, rfl, rfl, rfl, rfl, rfl,
    rfl, rfl, rfl, rfl⟩

/-- C9: creation is total on every factory: for every input combination
— any token type, channel, positions (including out-of-range spans and
`start > stop`), optional text and optional source — each factory's
`create` returns a token, raising no error.  The embedding is a total
function on all of these inputs, mirroring the panic-free source
(given total `get_text`/`size`); the produced token is moreover a real
freshly-initialized token (`read_only = false`). -/
theorem create_total (arenaO : List OwningToken)
    (arenaC : List CommonToken) (source : Option CharStream)
    (ttype : Int) (text : Option String)
    (channel start stop line column : Int) :
    (∃ tok : CommonToken,
      CowTokenFactory.create source ttype text channel start stop line
        column = tok ∧ tok.read_only = false) ∧
    (∃ tok : OwningToken,
      CommonTokenFactory.create source ttype text channel start stop
        line column = tok ∧ tok.read_only = false) ∧
    (∃ r : OwningToken × List OwningToken,
      ArenaFactory.create CommonTokenFactory.create arenaO source ttype
        text channel start stop line column = r ∧
        r.1.read_only = false) ∧
    (∃ r : CommonToken × List CommonToken,
      ArenaFactory.create CowTokenFactory.create arenaC source ttype
        text channel start stop line column = r ∧
        r.1.read_only = false) :=
  ⟨⟨_, rfl, rfl⟩, ⟨_, rfl, rfl⟩, ⟨_, rfl, rfl⟩, ⟨_, rfl, rfl⟩⟩

/-- C10: the arena adapter's `create_invalid` allocates nothing in the
arena and leaves its contents unchanged; the reference it returns —
obtained through the `Default` capability for `&T`, modelled from the
spec — is the shared invalid singleton itself, at the singleton's
address, for both wrapped representations. -/
theorem arena_create_invalid_frame (arenaO : List OwningToken)
    (arenaC : List CommonToken) :
    (ArenaFactory.create_invalid_owning arenaO).2 = arenaO ∧
    (ArenaFactory.create_invalid_owning arenaO).1.addr =
      INVALID_OWNING_box.addr ∧
    (ArenaFactory.create_invalid_owning arenaO).1.val =
      INVALID_OWNING ∧
    (ArenaFactory.create_invalid_common arenaC).2 = arenaC ∧
    (ArenaFactory.create_invalid_common arenaC).1.addr =
      INVALID_COMMON_box.addr ∧
    (ArenaFactory.create_invalid_common arenaC).1.val =
      INVALID_COMMON :=
  ⟨rfl, rfl, rfl, rfl, rfl, rfl⟩
